import Mathlib

/-
Verification development for the Stack Dash runner game
(arcade_game_hub/games/stack_dash: player.py, level.py, game.py).

Embedding conventions:
- Positions, velocities and sizes are exact rationals (ℚ); Python floats
  perform the same field arithmetic.
- pygame.Rect stores integer coordinates: float arguments are truncated
  toward zero.  This is modeled by `tz` below, and rectangles handed to
  pygame are `IRect` values with integer fields.
- `math.sin`, used only by the tile hover animation, is modeled as an
  oracle parameter `sf : ℚ → ℚ` threaded through the update functions.
- Rendering-only state (colors, sprites, animation frames, camera drawing,
  sound triggers, parallax backgrounds) is omitted: it never feeds back
  into the simulation state.
- In-place mutation of Python objects becomes explicit state passing:
  methods that mutate `self` return the updated record; methods that both
  mutate and return a value return a pair.
-/

namespace StackDash

/-- Truncation toward zero, the conversion pygame.Rect applies to float
coordinates (C `int` cast, same as Python `int()`). -/
def tz (q : ℚ) : ℤ :=
  if q < 0 then ⌈q⌉ else ⌊q⌋

/-- An integer rectangle as stored by pygame.Rect: left, top, width, height. -/
structure IRect where
  x : ℤ
  y : ℤ
  w : ℤ
  h : ℤ
  deriving DecidableEq

/-- pygame's Rect.colliderect: strict overlap on both axes; a rect with zero
width or height never collides. -/
def IRect.collide (a b : IRect) : Prop :=
  a.w ≠ 0 ∧ a.h ≠ 0 ∧ b.w ≠ 0 ∧ b.h ≠ 0 ∧
  a.x < b.x + b.w ∧ b.x < a.x + a.w ∧
  a.y < b.y + b.h ∧ b.y < a.y + a.h

instance (a b : IRect) : Decidable (a.collide b) := by
  unfold IRect.collide; exact inferInstance

/-- Platform (level.py class Platform): axis-aligned rectangle.  The colors
set in __init__ are rendering-only and omitted. -/
structure Platform where
  x : ℚ
  y : ℚ
  width : ℚ
  height : ℚ
  deriving DecidableEq

/-- Platform.get_rect: pygame.Rect(x, y, width, height). -/
def Platform.get_rect (p : Platform) : IRect :=
  ⟨tz p.x, tz p.y, tz p.width, tz p.height⟩

/-- Collectible tile (level.py class Tile).  width = 30 and height = 10 are
fixed in __init__; the random hover_speed / hover_range drawn there are kept
as fields.  Colors are rendering-only and omitted. -/
structure Tile where
  x : ℚ
  y : ℚ
  original_y : ℚ
  hover_offset : ℚ
  hover_speed : ℚ
  hover_range : ℚ
  collected : Bool
  deriving DecidableEq

/-- Tile.update: hover animation, `sf` standing for math.sin. -/
def Tile.update (sf : ℚ → ℚ) (t : Tile) : Tile :=
  let off := t.hover_offset + t.hover_speed
  { t with hover_offset := off, y := t.original_y + sf off * t.hover_range }

/-- Tile.get_rect: pygame.Rect(x - 30 // 2, y - 10 // 2, 30, 10). -/
def Tile.get_rect (t : Tile) : IRect :=
  ⟨tz (t.x - 15), tz (t.y - 5), 30, 10⟩

/-- Power-up kind (level.py PowerUp.TYPES). -/
inductive PType where
  | speed
  | jump
  | magnet
  deriving DecidableEq

/-- Power-up (level.py class PowerUp); radius = 15 fixed in __init__; colors
and pulse animation are rendering-only and omitted. -/
structure PowerUp where
  x : ℚ
  y : ℚ
  ptype : PType
  collected : Bool
  deriving DecidableEq

/-- PowerUp.get_rect: pygame.Rect(x - radius, y - radius, 2 * radius, 2 * radius). -/
def PowerUp.get_rect (u : PowerUp) : IRect :=
  ⟨tz (u.x - 15), tz (u.y - 15), 30, 30⟩

/-- Finish line (level.py class FinishLine); width = 20 fixed in __init__;
flag animation is rendering-only and omitted. -/
structure FinishLine where
  x : ℚ
  y : ℚ
  height : ℚ
  deriving DecidableEq

/-- FinishLine.get_rect: pygame.Rect(x, y, 20, height). -/
def FinishLine.get_rect (f : FinishLine) : IRect :=
  ⟨tz f.x, tz f.y, 20, tz f.height⟩

/-- Player state (player.py class Player).  Sprite/animation fields are
rendering-only and omitted.  Fields set once in __init__ and never
reassigned (width, height, speed, jump_power, gravity, max_tiles) are
modeled as the constant functions below. -/
structure Player where
  x : ℚ
  y : ℚ
  vel_x : ℚ
  vel_y : ℚ
  on_ground : Bool
  jump_safety : ℤ
  tile_count : ℤ
  speed_boost : Bool
  speed_boost_timer : ℤ
  jump_boost : Bool
  jump_boost_timer : ℤ
  tile_magnet : Bool
  tile_magnet_timer : ℤ
  deriving DecidableEq

/-- self.width = 40. -/
def Player.width (_ : Player) : ℚ := 40

/-- self.height = 60. -/
def Player.height (_ : Player) : ℚ := 60

/-- self.speed = 5. -/
def Player.speed (_ : Player) : ℚ := 5

/-- self.jump_power = -15. -/
def Player.jump_power (_ : Player) : ℚ := -15

/-- self.gravity = 0.8. -/
def Player.gravity (_ : Player) : ℚ := 4 / 5

/-- self.max_tiles = 20. -/
def Player.max_tiles (_ : Player) : ℤ := 20

/-- Player.get_rect: pygame.Rect(x - 40 // 2, y - 60 // 2, 40, 60). -/
def Player.get_rect (p : Player) : IRect :=
  ⟨tz (p.x - 20), tz (p.y - 30), 40, 60⟩

/-- Player.jump.  The source returns a success bool that both call sites
discard after acting on it, so only the state change is modeled. -/
def Player.jump (p : Player) : Player :=
  if p.on_ground then
    let jump_strength : ℚ := if p.jump_boost then p.jump_power * (13 / 10) else p.jump_power
    { p with vel_y := jump_strength, on_ground := false, y := p.y - 2, jump_safety := 10 }
  else p

/-- Per-frame input snapshot (pygame.key.get_pressed() reads inside
Player.update): left = K_LEFT or K_a, right = K_RIGHT or K_d,
jump = K_SPACE or K_UP or K_w. -/
structure Intent where
  left : Bool
  right : Bool
  jump : Bool
  deriving DecidableEq

/-- Player.update: horizontal speed from intent scaled by tile load and
speed boost, gravity when airborne, continuous-jump input, position
integration, jump-safety countdown, power-up timers.  The trailing
animation-frame bookkeeping is rendering-only and omitted. -/
def Player.update (intent : Intent) (p : Player) : Player :=
  let base_speed0 : ℚ := p.speed * (1 - (p.tile_count : ℚ) / ((p.max_tiles : ℚ) * 2))
  let base_speed : ℚ := if p.speed_boost then base_speed0 * (3 / 2) else base_speed0
  let vx : ℚ := if intent.right then base_speed else if intent.left then -base_speed else 0
  let p1 := { p with vel_x := vx }
  let p2 := if p1.on_ground then p1 else { p1 with vel_y := p1.vel_y + p1.gravity }
  let p3 := if intent.jump ∧ p2.on_ground then p2.jump else p2
  let p4 := { p3 with x := p3.x + p3.vel_x, y := p3.y + p3.vel_y }
  let p5 := if p4.jump_safety > 0 then { p4 with jump_safety := p4.jump_safety - 1 } else p4
  let p6 :=
    if p5.speed_boost then
      let q := { p5 with speed_boost_timer := p5.speed_boost_timer - 1 }
      if q.speed_boost_timer ≤ 0 then { q with speed_boost := false } else q
    else p5
  let p7 :=
    if p6.jump_boost then
      let q := { p6 with jump_boost_timer := p6.jump_boost_timer - 1 }
      if q.jump_boost_timer ≤ 0 then { q with jump_boost := false } else q
    else p6
  let p8 :=
    if p7.tile_magnet then
      let q := { p7 with tile_magnet_timer := p7.tile_magnet_timer - 1 }
      if q.tile_magnet_timer ≤ 0 then { q with tile_magnet := false } else q
    else p7
  p8

/-- Player.add_tile. -/
def Player.add_tile (p : Player) : Player :=
  if p.tile_count < p.max_tiles then { p with tile_count := p.tile_count + 1 } else p

/-- Player.remove_tile.  The source returns a bool that the only caller
(Game.update) discards, so only the state change is modeled. -/
def Player.remove_tile (p : Player) : Player :=
  if p.tile_count > 0 then { p with tile_count := p.tile_count - 1 } else p

/-- Player.fall: vel_y = 15, the strong downward game-over velocity. -/
def Player.fall (p : Player) : Player :=
  { p with vel_y := 15 }

/-- Player.activate_speed_boost. -/
def Player.activate_speed_boost (p : Player) : Player :=
  { p with speed_boost := true, speed_boost_timer := 300 }

/-- Player.activate_jump_boost. -/
def Player.activate_jump_boost (p : Player) : Player :=
  { p with jump_boost := true, jump_boost_timer := 300 }

/-- Player.activate_tile_magnet. -/
def Player.activate_tile_magnet (p : Player) : Player :=
  { p with tile_magnet := true, tile_magnet_timer := 300 }

/-- Level state (level.py class Level): platform list (ground + generated
platforms + appended bridges), tiles, power-ups, finish line.  Backgrounds
and the generation routine itself are not needed by the claims. -/
structure Level where
  platforms : List Platform
  tiles : List Tile
  power_ups : List PowerUp
  finish_line : Option FinishLine
  deriving DecidableEq

/-- Level.update: per-frame entity animations.  Only the tile hover
animation moves simulation-relevant state (tile y feeds collision); the
power-up pulse and finish-line flag animation are rendering-only. -/
def Level.update (sf : ℚ → ℚ) (l : Level) : Level :=
  { l with tiles := l.tiles.map (Tile.update sf) }

/-- Helper for Level.check_tile_collection: walk the tile list, mark the
first uncollected tile colliding with the player rect, and report its
index. -/
def collectTiles (pr : IRect) : List Tile → Option ℕ × List Tile
  | [] => (none, [])
  | t :: ts =>
    if t.collected = false ∧ pr.collide t.get_rect then
      (some 0, { t with collected := true } :: ts)
    else
      let r := collectTiles pr ts
      (r.1.map (fun n => n + 1), t :: r.2)

/-- Level.check_tile_collection: returns the index of the collected tile (if
any) together with the updated level (the source mutates the tile in place
and returns it). -/
def Level.check_tile_collection (l : Level) (p : Player) : Option ℕ × Level :=
  let r := collectTiles p.get_rect l.tiles
  (r.1, { l with tiles := r.2 })

/-- Helper for Level.check_powerup_collision: mark the first uncollected
power-up colliding with the player rect and report its type. -/
def collectPowerUps (pr : IRect) : List PowerUp → Option PType × List PowerUp
  | [] => (none, [])
  | u :: us =>
    if u.collected = false ∧ pr.collide u.get_rect then
      (some u.ptype, { u with collected := true } :: us)
    else
      let r := collectPowerUps pr us
      (r.1, u :: r.2)

/-- Level.check_powerup_collision: returns the collected power-up type (if
any) together with the updated level. -/
def Level.check_powerup_collision (l : Level) (p : Player) : Option PType × Level :=
  let r := collectPowerUps p.get_rect l.power_ups
  (r.1, { l with power_ups := r.2 })

/-- Level.check_gap: gap detection.  False during the jump-safety window;
otherwise fires only when falling (vel_y > 2.0), airborne, and moving
horizontally (|vel_x| > 0.5); then casts pygame.Rect(x - 5, y, 10, 100)
downward and reports a gap iff it hits no platform. -/
def Level.check_gap (l : Level) (p : Player) : Bool :=
  if p.jump_safety > 0 then false
  else if 2 < p.vel_y ∧ p.on_ground = false ∧ 1 / 2 < |p.vel_x| then
    let ray : IRect := ⟨tz (p.x - 5), tz p.y, 10, 100⟩
    if ∃ pl ∈ l.platforms, ray.collide pl.get_rect then false else true
  else false

/-- Level.build_bridge: append Platform(x - 20, y + 20, 40, 10) (bridge
colors omitted as rendering-only). -/
def Level.build_bridge (l : Level) (x y : ℚ) : Level :=
  { l with platforms := l.platforms ++ [⟨x - 20, y + 20, 40, 10⟩] }

/-- Level.check_finish_line. -/
def Level.check_finish_line (l : Level) (p : Player) : Bool :=
  match l.finish_line with
  | none => false
  | some f => decide (p.get_rect.collide f.get_rect)

/-- Axis along which a platform collision was resolved (instrumentation for
the collision resolver: left/right resolutions are horizontal, ground-snap
and top/bottom resolutions are vertical). -/
inductive Axis where
  | horizontal
  | vertical
  deriving DecidableEq

/-- Condition of the ground-snap fast path in Level.check_collision: the
player's horizontal extent overlaps the platform's, the player's bottom edge
lies in the band [platform.y - 5, platform.y + 10], and the player is not
moving upward. -/
def snapCond (p : Player) (pl : Platform) : Prop :=
  |p.x - (pl.x + pl.width / 2)| < pl.width / 2 + p.width / 2 ∧
  pl.y - 5 ≤ p.y + p.height / 2 ∧
  p.y + p.height / 2 ≤ pl.y + 10 ∧
  0 ≤ p.vel_y

instance (p : Player) (pl : Platform) : Decidable (snapCond p pl) := by
  unfold snapCond; exact inferInstance

/-- One iteration of the second (minimum-overlap) pass of
Level.check_collision.  `pr0` is the player rect captured at the top of the
method (it is not recomputed after moves, so every platform is tested
against the stale rect), while the four overlaps are computed from the
current player coordinates.  The second component logs which platform was
resolved along which axis. -/
def resolveStep (pr0 : IRect) (s : Player × List (Platform × Axis)) (pl : Platform) :
    Player × List (Platform × Axis) :=
  let p := s.1
  if pr0.collide pl.get_rect then
    let left_overlap := (pl.x + pl.width) - (p.x - p.width / 2)
    let right_overlap := (p.x + p.width / 2) - pl.x
    let top_overlap := (pl.y + pl.height) - (p.y - p.height / 2)
    let bottom_overlap := (p.y + p.height / 2) - pl.y
    let min_overlap := min (min (min left_overlap right_overlap) top_overlap) bottom_overlap
    if min_overlap = bottom_overlap ∧ p.vel_y < 0 then
      ({ p with y := pl.y + pl.height + p.height / 2, vel_y := 0 },
       s.2 ++ [(pl, Axis.vertical)])
    else if min_overlap = left_overlap ∧ 0 < p.vel_x then
      ({ p with x := pl.x - p.width / 2, vel_x := 0 },
       s.2 ++ [(pl, Axis.horizontal)])
    else if min_overlap = right_overlap ∧ p.vel_x < 0 then
      ({ p with x := pl.x + pl.width + p.width / 2, vel_x := 0 },
       s.2 ++ [(pl, Axis.horizontal)])
    else if min_overlap = top_overlap ∧ 0 < p.vel_y then
      ({ p with y := pl.y - p.height / 2, vel_y := 0, on_ground := true },
       s.2 ++ [(pl, Axis.vertical)])
    else s
  else s

/-- Level.check_collision: ground-snap pass (first qualifying platform wins
and the method returns), otherwise the minimum-overlap pass over all
platforms, then the epsilon fall-start injection (vel_y = 0.1) when the
player was grounded, ends grounded on nothing, and has zero vertical
velocity.  Besides the updated player it returns the list of platforms whose
collision was resolved, with the resolution axis. -/
def Level.check_collision (l : Level) (p : Player) : Player × List (Platform × Axis) :=
  let pr0 := p.get_rect
  let was_on_ground := p.on_ground
  let p0 := { p with on_ground := false }
  match l.platforms.find? (fun pl => decide (snapCond p0 pl)) with
  | some pl =>
    ({ p0 with y := pl.y - p0.height / 2, vel_y := 0, on_ground := true },
     [(pl, Axis.vertical)])
  | none =>
    let r := l.platforms.foldl (resolveStep pr0) (p0, [])
    if was_on_ground = true ∧ r.1.on_ground = false ∧ r.1.vel_y = 0 then
      ({ r.1 with vel_y := 1 / 10 }, r.2)
    else r

/-- Game state machine states (game.py Game.STATE_*). -/
inductive GState where
  | starting
  | playing
  | paused
  | game_over
  | level_complete
  deriving DecidableEq

/-- Game state (game.py class Game).  Screen, clock, fonts, sounds, camera
rendering and high-score persistence are external collaborators; of the
simulation state, camera_x is kept because Game.update writes it. -/
structure Game where
  player : Player
  level : Level
  state : GState
  state_timer : ℤ
  score : ℤ
  timer : ℕ
  camera_x : ℚ
  deriving DecidableEq

/-- Game._apply_powerup. -/
def apply_powerup (t : PType) (p : Player) : Player :=
  match t with
  | PType.speed => p.activate_speed_boost
  | PType.jump => p.activate_jump_boost
  | PType.magnet => p.activate_tile_magnet

/-- PLAYING phase 1 (game.py update): timer += 1, player.update(),
level.update(), level.check_collision(player). -/
def phasePhysics (sf : ℚ → ℚ) (intent : Intent) (g : Game) : Game :=
  let g1 := { g with timer := g.timer + 1 }
  let g2 := { g1 with player := g1.player.update intent }
  let g3 := { g2 with level := g2.level.update sf }
  { g3 with player := (g3.level.check_collision g3.player).1 }

/-- PLAYING phase 2: tile collection; on a collected tile, add_tile and
score += 10. -/
def phaseCollect (g : Game) : Game :=
  let r := g.level.check_tile_collection g.player
  match r.1 with
  | some _ => { g with level := r.2, player := g.player.add_tile, score := g.score + 10 }
  | none => { g with level := r.2 }

/-- PLAYING phase 3: gap handling; when falling (vel_y > 2.0) over a gap,
spend a tile and build a bridge at the player's position, or, with no tiles,
fall and transition to GAME_OVER. -/
def phaseGap (g : Game) : Game :=
  if 2 < g.player.vel_y ∧ g.level.check_gap g.player = true then
    if 0 < g.player.tile_count then
      { g with player := g.player.remove_tile,
               level := g.level.build_bridge g.player.x g.player.y }
    else
      { g with player := g.player.fall, state := GState.game_over }
  else g

/-- PLAYING phase 4: power-up collection. -/
def phasePowerup (g : Game) : Game :=
  let r := g.level.check_powerup_collision g.player
  match r.1 with
  | some t => { g with level := r.2, player := apply_powerup t g.player }
  | none => { g with level := r.2 }

/-- PLAYING phase 5: camera follow; SCREEN_WIDTH // 3 = 800 // 3 = 266. -/
def phaseCamera (g : Game) : Game :=
  let target : ℚ := g.player.x - 266
  { g with camera_x := g.camera_x + (target - g.camera_x) * (1 / 10) }

/-- Time bonus at the finish line: max(0, 10000 - timer // 60 * 10). -/
def time_bonus (timer : ℕ) : ℤ :=
  max 0 (10000 - ((timer / 60 : ℕ) : ℤ) * 10)

/-- PLAYING phase 6: finish line; on overlap, LEVEL_COMPLETE and the
time/tile bonus is added to the score. -/
def phaseFinish (g : Game) : Game :=
  if g.level.check_finish_line g.player = true then
    { g with state := GState.level_complete,
             score := g.score + time_bonus g.timer + g.player.tile_count * 50 }
  else g

/-- PLAYING phase 7: falling off the bottom of the screen
(SCREEN_HEIGHT + 200 = 800) is GAME_OVER. -/
def phaseOffscreen (g : Game) : Game :=
  if 800 < g.player.y then { g with state := GState.game_over } else g

/-- The whole PLAYING body of Game.update, phases in source order. -/
def updatePlaying (sf : ℚ → ℚ) (intent : Intent) (g : Game) : Game :=
  phaseOffscreen (phaseFinish (phaseCamera (phasePowerup (phaseGap
    (phaseCollect (phasePhysics sf intent g))))))

/-- Game.update: STARTING counts down into PLAYING; PLAYING runs the frame
pipeline; PAUSED, GAME_OVER and LEVEL_COMPLETE match no branch of the elif
chain and leave the state untouched. -/
def Game.update (sf : ℚ → ℚ) (intent : Intent) (g : Game) : Game :=
  match g.state with
  | GState.starting =>
    let g1 := { g with state_timer := g.state_timer - 1 }
    if g1.state_timer ≤ 0 then { g1 with state := GState.playing } else g1
  | GState.playing => updatePlaying sf intent g
  | GState.paused => g
  | GState.game_over => g
  | GState.level_complete => g

/-- Strict overlap of the player's and a platform's horizontal extents (the
horizontal-axis component of AABB intersection, on the exact rational
coordinates). -/
def hOverlap (p : Player) (pl : Platform) : Prop :=
  p.x - p.width / 2 < pl.x + pl.width ∧ pl.x < p.x + p.width / 2

instance (p : Player) (pl : Platform) : Decidable (hOverlap p pl) := by
  unfold hOverlap; exact inferInstance

/-- Strict overlap of the player's and a platform's vertical extents. -/
def vOverlap (p : Player) (pl : Platform) : Prop :=
  p.y - p.height / 2 < pl.y + pl.height ∧ pl.y < p.y + p.height / 2

instance (p : Player) (pl : Platform) : Decidable (vOverlap p pl) := by
  unfold vOverlap; exact inferInstance

/-- The player does not overlap the platform on the given axis. -/
def axisSeparated (p : Player) (pl : Platform) : Axis → Prop
  | Axis.horizontal => ¬ hOverlap p pl
  | Axis.vertical => ¬ vOverlap p pl

/-- Reference player for concrete evaluations: airborne at (100, 100) with
zero velocity, no tiles, no active power-ups. -/
def basePlayer : Player :=
  { x := 100, y := 100, vel_x := 0, vel_y := 0, on_ground := false,
    jump_safety := 0, tile_count := 0,
    speed_boost := false, speed_boost_timer := 0,
    jump_boost := false, jump_boost_timer := 0,
    tile_magnet := false, tile_magnet_timer := 0 }

/-- Empty reference level for concrete evaluations. -/
def emptyLevel : Level :=
  { platforms := [], tiles := [], power_ups := [], finish_line := none }

/-- Reference game state for concrete evaluations. -/
def baseGame : Game :=
  { player := basePlayer, level := emptyLevel, state := GState.playing,
    state_timer := 0, score := 0, timer := 0, camera_x := 0 }

/-- Zero oracle standing in for math.sin in concrete evaluations. -/
def sinZero : ℚ → ℚ := fun _ => 0

/-- Input snapshot with no key pressed. -/
def idleIntent : Intent := ⟨false, false, false⟩

/-- Input snapshot holding only the right-arrow key. -/
def rightIntent : Intent := ⟨false, true, false⟩

/-- A platform whose top edge (y = 130) is exactly under basePlayer's bottom
edge (100 + 60 / 2 = 130). -/
def groundPlat : Platform := ⟨0, 130, 300, 20⟩

/-- Level with the single platform groundPlat. -/
def onePlatLevel : Level := { emptyLevel with platforms := [groundPlat] }

/-- A platform 5 below groundPlat's top; basePlayer's bottom edge (130) also
lies inside its ground-snap band [130, 145]. -/
def upperPlat : Platform := ⟨0, 135, 300, 20⟩

/-- Level listing upperPlat before groundPlat. -/
def twoPlatLevel : Level := { emptyLevel with platforms := [upperPlat, groundPlat] }

/-- basePlayer carrying the maximum 20 tiles. -/
def maxTilePlayer : Player := { basePlayer with tile_count := 20 }

/-- An uncollected tile centered on basePlayer's position. -/
def cTile : Tile :=
  { x := 100, y := 100, original_y := 100, hover_offset := 0, hover_speed := 0,
    hover_range := 0, collected := false }

/-- Game state with a full tile stack and one overlapping uncollected tile. -/
def tileGame : Game :=
  { baseGame with player := maxTilePlayer,
                  level := { emptyLevel with tiles := [cTile] } }

/-- Game state: player falling (vel_y = 5) over empty space holding 2 tiles. -/
def fallGame2 : Game :=
  { baseGame with player := { basePlayer with vel_y := 5, tile_count := 2 } }

/-- Game state: player falling (vel_y = 5) over empty space with no tiles. -/
def fallGame0 : Game :=
  { baseGame with player := { basePlayer with vel_y := 5 } }

/-- A finish line overlapping basePlayer's AABB. -/
def cFinish : FinishLine := ⟨90, 120, 200⟩

/-- Game state with only a finish line, overlapping the player. -/
def finishGame : Game :=
  { baseGame with level := { emptyLevel with finish_line := some cFinish } }

/-- Game state already in LEVEL_COMPLETE. -/
def doneGame : Game := { baseGame with state := GState.level_complete }

/-- C5: gap detection returns false whenever the jump-safety counter is
positive, regardless of the platform list (check_gap returns on its first
line before any other test). -/
theorem check_gap_safety_window (l : Level) (p : Player) (h : 0 < p.jump_safety) :
    l.check_gap p = false := by
  simp [Level.check_gap, h]

/-- Witness for C5: jump_safety = 3 suppresses gap detection for a fast-moving
falling player over a level with no platform below at all. -/
theorem check_gap_safety_window_witness :
    (0:ℤ) < 3 ∧
    emptyLevel.check_gap { basePlayer with jump_safety := 3, vel_y := 5, vel_x := 3 } = false :=
  ⟨by norm_num, check_gap_safety_window _ _ (by norm_num)⟩

/-- C2: the resource counter stays in [0, 20]: add_tile and remove_tile each
preserve the bounds, hence any sequence of the two mutators (the only writers
of tile_count after initialization) preserves them, and the gap branch of
Game.update leaves the level untouched (no bridge is built) when
tile_count = 0. -/
theorem resource_count_invariant :
    (∀ p : Player, 0 ≤ p.tile_count → p.tile_count ≤ 20 →
      0 ≤ p.add_tile.tile_count ∧ p.add_tile.tile_count ≤ 20) ∧
    (∀ p : Player, 0 ≤ p.tile_count → p.tile_count ≤ 20 →
      0 ≤ p.remove_tile.tile_count ∧ p.remove_tile.tile_count ≤ 20) ∧
    (∀ fs : List (Player → Player),
      (∀ f ∈ fs, f = Player.add_tile ∨ f = Player.remove_tile) →
      ∀ p : Player, 0 ≤ p.tile_count → p.tile_count ≤ 20 →
        0 ≤ (fs.foldl (fun s f => f s) p).tile_count ∧
        (fs.foldl (fun s f => f s) p).tile_count ≤ 20) ∧
    (∀ g : Game, g.player.tile_count = 0 → (phaseGap g).level = g.level) := by
  have hadd : ∀ p : Player, 0 ≤ p.tile_count → p.tile_count ≤ 20 →
      0 ≤ p.add_tile.tile_count ∧ p.add_tile.tile_count ≤ 20 := by
    intro p h0 h20
    unfold Player.add_tile
    simp only [Player.max_tiles]
    split_ifs with h
    · exact ⟨by show (0:ℤ) ≤ p.tile_count + 1; omega, by show p.tile_count + 1 ≤ 20; omega⟩
    · exact ⟨h0, h20⟩
  have hrem : ∀ p : Player, 0 ≤ p.tile_count → p.tile_count ≤ 20 →
      0 ≤ p.remove_tile.tile_count ∧ p.remove_tile.tile_count ≤ 20 := by
    intro p h0 h20
    unfold Player.remove_tile
    split_ifs with h
    · exact ⟨by show (0:ℤ) ≤ p.tile_count - 1; omega, by show p.tile_count - 1 ≤ 20; omega⟩
    · exact ⟨h0, h20⟩
  refine ⟨hadd, hrem, ?_, ?_⟩
  · intro fs
    induction fs with
    | nil => intro _ p h0 h20; exact ⟨h0, h20⟩
    | cons f fs ih =>
      intro hf p h0 h20
      have hme := hf f (List.mem_cons_self f fs)
      have hrest : ∀ f' ∈ fs, f' = Player.add_tile ∨ f' = Player.remove_tile :=
        fun f' hf' => hf f' (List.mem_cons_of_mem f hf')
      rcases hme with rfl | rfl
      · exact ih hrest (p.add_tile) (hadd p h0 h20).1 (hadd p h0 h20).2
      · exact ih hrest (p.remove_tile) (hrem p h0 h20).1 (hrem p h0 h20).2
  · intro g h0
    unfold phaseGap
    split_ifs with h1 h2
    · omega
    · rfl
    · rfl

/-- Witness for C2: the bound-preservation parts at the full stack (add_tile
keeps 20) and at the empty stack (remove_tile keeps 0), a concrete mutator
sequence, and the gap branch at tile_count = 0 building no bridge. -/
theorem resource_count_invariant_witness :
    (0 ≤ maxTilePlayer.add_tile.tile_count ∧ maxTilePlayer.add_tile.tile_count ≤ 20) ∧
    (0 ≤ basePlayer.remove_tile.tile_count ∧ basePlayer.remove_tile.tile_count ≤ 20) ∧
    (0 ≤ ([Player.add_tile, Player.remove_tile].foldl (fun s f => f s) basePlayer).tile_count ∧
      ([Player.add_tile, Player.remove_tile].foldl (fun s f => f s) basePlayer).tile_count ≤ 20) ∧
    (phaseGap fallGame0).level = fallGame0.level :=
  ⟨resource_count_invariant.1 maxTilePlayer (by norm_num [maxTilePlayer, basePlayer])
      (by norm_num [maxTilePlayer, basePlayer]),
   resource_count_invariant.2.1 basePlayer (by norm_num [basePlayer]) (by norm_num [basePlayer]),
   resource_count_invariant.2.2.1 [Player.add_tile, Player.remove_tile]
      (by intro f hf; simp at hf; rcases hf with rfl | rfl <;> simp)
      basePlayer (by norm_num [basePlayer]) (by norm_num [basePlayer]),
   resource_count_invariant.2.2.2 fallGame0 (by norm_num [fallGame0, baseGame, basePlayer])⟩

/-- The horizontal velocity Player.update leaves behind: the tile-scaled,
boost-scaled base speed signed by the movement intent (no later step of the
update touches vel_x). -/
theorem update_vel_x (intent : Intent) (p : Player) :
    (Player.update intent p).vel_x =
      if intent.right = true then
        (if p.speed_boost = true
          then p.speed * (1 - (p.tile_count : ℚ) / ((p.max_tiles : ℚ) * 2)) * (3 / 2)
          else p.speed * (1 - (p.tile_count : ℚ) / ((p.max_tiles : ℚ) * 2)))
      else if intent.left = true then
        -(if p.speed_boost = true
          then p.speed * (1 - (p.tile_count : ℚ) / ((p.max_tiles : ℚ) * 2)) * (3 / 2)
          else p.speed * (1 - (p.tile_count : ℚ) / ((p.max_tiles : ℚ) * 2)))
      else 0 := by
  unfold Player.update Player.jump
  simp only [apply_ite Player.vel_x, ite_self]

/-- Magnitude of the post-update horizontal velocity under a horizontal
movement intent. -/
theorem update_speed_mag (intent : Intent) (p : Player)
    (hmove : intent.left = true ∨ intent.right = true)
    (hpos : 0 ≤ p.speed * (1 - (p.tile_count : ℚ) / ((p.max_tiles : ℚ) * 2))) :
    |(Player.update intent p).vel_x| =
      (if p.speed_boost = true then (3:ℚ)/2 else 1) *
        (p.speed * (1 - (p.tile_count : ℚ) / ((p.max_tiles : ℚ) * 2))) := by
  rw [update_vel_x]
  cases hir : intent.right with
  | false =>
    have hil : intent.left = true := by
      rcases hmove with h | h
      · exact h
      · rw [h] at hir; cases hir
    rw [hil, if_neg Bool.false_ne_true, if_pos rfl, abs_neg]
    split_ifs with hb
    · rw [abs_of_nonneg (by nlinarith)]; ring
    · rw [abs_of_nonneg hpos]; ring
  | true =>
    rw [if_pos rfl]
    split_ifs with hb
    · rw [abs_of_nonneg (by nlinarith)]; ring
    · rw [abs_of_nonneg hpos]; ring

/-- C9 counterexample: with no horizontal movement intent the claim fails as
stated — at counts 0 and 1 (0 < 1 ≤ 20, same intent, same modifiers) the
post-update speed magnitude is 0 in both cases, not strictly smaller at the
larger count. -/
theorem speed_not_strict_counterexample :
    (0:ℤ) < 1 ∧ (1:ℤ) ≤ 20 ∧
    ¬ (|(Player.update idleIntent { basePlayer with tile_count := 1 }).vel_x| <
       |(Player.update idleIntent { basePlayer with tile_count := 0 }).vel_x|) := by
  refine ⟨by norm_num, by norm_num, ?_⟩
  norm_num [Player.update, Player.jump, idleIntent, basePlayer, Player.speed,
    Player.max_tiles, Player.gravity, abs_eq_max_neg, max_def]

/-- C9 as amended: for any movement intent that presses a horizontal
direction, the post-update speed magnitude is strictly decreasing in the
resource count over [0, 20] (it equals base speed 5 scaled linearly by
(1 - count / 40) and by the 1.5 speed-boost factor). -/
theorem speed_strict_anti (p : Player) (intent : Intent) (n1 n2 : ℤ)
    (hmove : intent.left = true ∨ intent.right = true)
    (h0 : 0 ≤ n1) (h12 : n1 < n2) (h2 : n2 ≤ 20) :
    |(Player.update intent { p with tile_count := n2 }).vel_x| <
    |(Player.update intent { p with tile_count := n1 }).vel_x| := by
  have c12 : (n1:ℚ) < (n2:ℚ) := by exact_mod_cast h12
  have c2 : (n2:ℚ) ≤ 20 := by exact_mod_cast h2
  have c0 : (0:ℚ) ≤ (n1:ℚ) := by exact_mod_cast h0
  have hb2 : (0:ℚ) ≤ ({ p with tile_count := n2 } : Player).speed *
      (1 - (({ p with tile_count := n2 } : Player).tile_count : ℚ) /
        ((({ p with tile_count := n2 } : Player).max_tiles : ℚ) * 2)) := by
    simp only [Player.speed, Player.max_tiles]
    push_cast
    nlinarith
  have hb1 : (0:ℚ) ≤ ({ p with tile_count := n1 } : Player).speed *
      (1 - (({ p with tile_count := n1 } : Player).tile_count : ℚ) /
        ((({ p with tile_count := n1 } : Player).max_tiles : ℚ) * 2)) := by
    simp only [Player.speed, Player.max_tiles]
    push_cast
    nlinarith
  rw [update_speed_mag intent _ hmove hb2, update_speed_mag intent _ hmove hb1]
  simp only [Player.speed, Player.max_tiles]
  push_cast
  split_ifs with hb
  · nlinarith
  · nlinarith

/-- Witness for C9 (amended): with the right key held, carrying 1 tile is
strictly slower than carrying 0. -/
theorem speed_strict_anti_witness :
    ((0:ℤ) ≤ 0 ∧ (0:ℤ) < 1 ∧ (1:ℤ) ≤ 20) ∧
    |(Player.update rightIntent { basePlayer with tile_count := 1 }).vel_x| <
    |(Player.update rightIntent { basePlayer with tile_count := 0 }).vel_x| :=
  ⟨⟨le_refl 0, by norm_num, by norm_num⟩,
   speed_strict_anti basePlayer rightIntent 0 1 (Or.inr rfl) (le_refl 0)
     (by norm_num) (by norm_num)⟩

/-- If some tile of the list is uncollected and overlaps the player rect,
collectTiles reports a collected index. -/
theorem collectTiles_found (pr : IRect) :
    ∀ (ts : List Tile) (j : ℕ) (t : Tile), ts[j]? = some t → t.collected = false →
      pr.collide t.get_rect → ∃ i, (collectTiles pr ts).1 = some i := by
  intro ts
  induction ts with
  | nil => intro j t hj _ _; simp at hj
  | cons a as ih =>
    intro j t hj hc ho
    unfold collectTiles
    split_ifs with h
    · exact ⟨0, rfl⟩
    · cases j with
      | zero =>
        simp at hj
        exact absurd ⟨by rw [hj]; exact hc, by rw [hj]; exact ho⟩ h
      | succ j =>
        simp only [List.getElem?_cons_succ] at hj
        obtain ⟨i, hi⟩ := ih j t hj hc ho
        exact ⟨i + 1, by simp [hi]⟩

/-- What a successful collectTiles run did: the reported index holds an
uncollected overlapping tile in the input, and in the output that tile is
marked collected. -/
theorem collectTiles_spec (pr : IRect) :
    ∀ (ts : List Tile) (i : ℕ), (collectTiles pr ts).1 = some i →
      ∃ t0, ts[i]? = some t0 ∧ t0.collected = false ∧ pr.collide t0.get_rect ∧
        (collectTiles pr ts).2[i]? = some { t0 with collected := true } := by
  intro ts
  induction ts with
  | nil => intro i hi; simp [collectTiles] at hi
  | cons a as ih =>
    intro i hi
    unfold collectTiles at hi ⊢
    split_ifs at hi ⊢ with h
    · simp at hi
      subst hi
      exact ⟨a, by simp, h.1, h.2, by simp⟩
    · simp only at hi
      obtain ⟨i', hi', rfl⟩ := Option.map_eq_some'.1 hi
      obtain ⟨t0, h1, h2, h3, h4⟩ := ih i' hi'
      exact ⟨t0, by simpa using h1, h2, h3, by simpa using h4⟩

/-- C10: when the player overlaps an uncollected tile while already carrying
the maximum of 20 tiles, the collection phase of Game.update still marks a
previously uncollected overlapping tile as collected and still adds the
pickup score of 10, but tile_count stays at 20 (add_tile is a no-op at the
cap). -/
theorem tile_collection_at_max (g : Game) (j : ℕ) (t : Tile)
    (hmax : g.player.tile_count = 20)
    (hj : g.level.tiles[j]? = some t) (hc : t.collected = false)
    (ho : IRect.collide g.player.get_rect t.get_rect) :
    (phaseCollect g).player.tile_count = 20 ∧
    (phaseCollect g).score = g.score + 10 ∧
    ∃ (i : ℕ) (t0 : Tile), g.level.tiles[i]? = some t0 ∧ t0.collected = false ∧
      (phaseCollect g).level.tiles[i]? = some { t0 with collected := true } := by
  obtain ⟨i, hi⟩ := collectTiles_found g.player.get_rect g.level.tiles j t hj hc ho
  obtain ⟨t0, h1, h2, h3, h4⟩ := collectTiles_spec g.player.get_rect g.level.tiles i hi
  have hred : phaseCollect g =
      { g with level := { g.level with tiles := (collectTiles g.player.get_rect g.level.tiles).2 },
               player := g.player.add_tile, score := g.score + 10 } := by
    unfold phaseCollect Level.check_tile_collection
    simp only [hi]
  rw [hred]
  refine ⟨?_, rfl, i, t0, h1, h2, h4⟩
  show g.player.add_tile.tile_count = 20
  unfold Player.add_tile
  simp only [Player.max_tiles, hmax]
  exact hmax

/-- Witness for C10: a full stack of 20, one uncollected tile centered on the
player: after the collection phase the tile is marked, the score went up by
10, and the stack is still 20. -/
theorem tile_collection_at_max_witness :
    (phaseCollect tileGame).player.tile_count = 20 ∧
    (phaseCollect tileGame).score = tileGame.score + 10 ∧
    ∃ (i : ℕ) (t0 : Tile), tileGame.level.tiles[i]? = some t0 ∧ t0.collected = false ∧
      (phaseCollect tileGame).level.tiles[i]? = some { t0 with collected := true } :=
  tile_collection_at_max tileGame 0 cTile rfl rfl rfl
    (by norm_num [IRect.collide, Player.get_rect, Tile.get_rect, tz, tileGame,
      maxTilePlayer, basePlayer, cTile, emptyLevel, baseGame])

/-- Horizontal overlap only looks at the player's x. -/
theorem hOverlap_congr (p p' : Player) (h : p.x = p'.x) (q : Platform) :
    hOverlap p q ↔ hOverlap p' q := by
  unfold hOverlap Player.width
  rw [h]

/-- Vertical overlap only looks at the player's y. -/
theorem vOverlap_congr (p p' : Player) (h : p.y = p'.y) (q : Platform) :
    vOverlap p q ↔ vOverlap p' q := by
  unfold vOverlap Player.height
  rw [h]

/-- What one minimum-overlap step can do: leave the state untouched, resolve
the platform horizontally (the player then touches the platform's vertical
edge, vel_x is zeroed, y untouched, and vel_x was nonzero before), or resolve
it vertically (symmetrically). -/
theorem resolveStep_char (pr0 : IRect) (s : Player × List (Platform × Axis)) (pl : Platform) :
    resolveStep pr0 s pl = s ∨
    (∃ p' : Player, resolveStep pr0 s pl = (p', s.2 ++ [(pl, Axis.horizontal)]) ∧
      ¬ hOverlap p' pl ∧ p'.vel_x = 0 ∧ p'.y = s.1.y ∧ p'.vel_y = s.1.vel_y ∧
      s.1.vel_x ≠ 0) ∨
    (∃ p' : Player, resolveStep pr0 s pl = (p', s.2 ++ [(pl, Axis.vertical)]) ∧
      ¬ vOverlap p' pl ∧ p'.vel_y = 0 ∧ p'.x = s.1.x ∧ p'.vel_x = s.1.vel_x ∧
      s.1.vel_y ≠ 0) := by
  unfold resolveStep
  dsimp only
  split_ifs with h1 h2 h3 h4 h5
  · -- collision from below
    refine Or.inr (Or.inr ⟨_, rfl, ?_, rfl, rfl, rfl, ne_of_lt h2.2⟩)
    unfold vOverlap Player.height
    rintro ⟨hA, hB⟩
    dsimp only at hA hB
    linarith
  · -- collision from the left
    refine Or.inr (Or.inl ⟨_, rfl, ?_, rfl, rfl, rfl, ne_of_gt h3.2⟩)
    unfold hOverlap Player.width
    rintro ⟨hA, hB⟩
    dsimp only at hA hB
    linarith
  · -- collision from the right
    refine Or.inr (Or.inl ⟨_, rfl, ?_, rfl, rfl, rfl, ne_of_lt h4.2⟩)
    unfold hOverlap Player.width
    rintro ⟨hA, hB⟩
    dsimp only at hA hB
    linarith
  · -- collision from above
    refine Or.inr (Or.inr ⟨_, rfl, ?_, rfl, rfl, rfl, ne_of_gt h5.2⟩)
    unfold vOverlap Player.height
    rintro ⟨hA, hB⟩
    dsimp only at hA hB
    linarith
  · exact Or.inl rfl
  · exact Or.inl rfl

/-- Fold invariant of the minimum-overlap pass: every platform logged as
horizontally resolved is horizontally separated from the current player and
vel_x is 0 (so x can never move again), and symmetrically for vertical. -/
theorem resolvePass_inv (pr0 : IRect) (plats : List Platform) :
    ∀ s : Player × List (Platform × Axis),
      (∀ q, (q, Axis.horizontal) ∈ s.2 → ¬ hOverlap s.1 q ∧ s.1.vel_x = 0) →
      (∀ q, (q, Axis.vertical) ∈ s.2 → ¬ vOverlap s.1 q ∧ s.1.vel_y = 0) →
      (∀ q, (q, Axis.horizontal) ∈ (plats.foldl (resolveStep pr0) s).2 →
          ¬ hOverlap (plats.foldl (resolveStep pr0) s).1 q ∧
          (plats.foldl (resolveStep pr0) s).1.vel_x = 0) ∧
      (∀ q, (q, Axis.vertical) ∈ (plats.foldl (resolveStep pr0) s).2 →
          ¬ vOverlap (plats.foldl (resolveStep pr0) s).1 q ∧
          (plats.foldl (resolveStep pr0) s).1.vel_y = 0) := by
  induction plats with
  | nil => intro s hh hv; exact ⟨hh, hv⟩
  | cons pl rest ih =>
    intro s hh hv
    rw [List.foldl_cons]
    rcases resolveStep_char pr0 s pl with heq | ⟨p', heq, hsep, hvx, hy, hvy, hnz⟩ |
      ⟨p', heq, hsep, hvy, hx, hvx, hnz⟩
    · rw [heq]; exact ih s hh hv
    · rw [heq]
      refine ih (p', s.2 ++ [(pl, Axis.horizontal)]) ?_ ?_
      · intro q hq
        rcases List.mem_append.1 hq with hq | hq
        · exact absurd (hh q hq).2 hnz
        · simp only [List.mem_singleton, Prod.mk.injEq] at hq
          rcases hq with ⟨rfl, -⟩
          exact ⟨hsep, hvx⟩
      · intro q hq
        rcases List.mem_append.1 hq with hq | hq
        · exact ⟨(vOverlap_congr s.1 p' hy.symm q).not.1 (hv q hq).1,
            by rw [hvy]; exact (hv q hq).2⟩
        · simp only [List.mem_singleton, Prod.mk.injEq] at hq
          cases hq.2
    · rw [heq]
      refine ih (p', s.2 ++ [(pl, Axis.vertical)]) ?_ ?_
      · intro q hq
        rcases List.mem_append.1 hq with hq | hq
        · exact ⟨(hOverlap_congr s.1 p' hx.symm q).not.1 (hh q hq).1,
            by rw [hvx]; exact (hh q hq).2⟩
        · simp only [List.mem_singleton, Prod.mk.injEq] at hq
          cases hq.2
      · intro q hq
        rcases List.mem_append.1 hq with hq | hq
        · exact absurd (hv q hq).2 hnz
        · simp only [List.mem_singleton, Prod.mk.injEq] at hq
          rcases hq with ⟨rfl, -⟩
          exact ⟨hsep, hvy⟩

/-- C1: after one call to check_collision, the player's AABB does not overlap
any platform's AABB on the axis along which that platform's collision was
resolved (ground-snap and top/bottom resolutions separate vertically,
left/right resolutions separate horizontally; zeroing the velocity component
prevents any later step of the same call from moving that axis again). -/
theorem check_collision_resolved_axis_separated (l : Level) (p : Player)
    (pl : Platform) (ax : Axis)
    (hmem : (pl, ax) ∈ (l.check_collision p).2) :
    axisSeparated (l.check_collision p).1 pl ax := by
  unfold Level.check_collision at hmem ⊢
  cases hfind : l.platforms.find? (fun q => decide (snapCond { p with on_ground := false } q)) with
  | some pl0 =>
    simp only [hfind, List.mem_singleton, Prod.mk.injEq] at hmem
    simp only [hfind]
    rcases hmem with ⟨rfl, rfl⟩
    unfold axisSeparated vOverlap Player.height
    rintro ⟨hA, hB⟩
    dsimp only at hA hB
    linarith
  | none =>
    simp only [hfind] at hmem ⊢
    have inv := resolvePass_inv p.get_rect l.platforms ({ p with on_ground := false }, [])
      (by intro q hq; cases hq) (by intro q hq; cases hq)
    split_ifs at hmem ⊢ with hinj
    · -- epsilon injection: position unchanged, only vel_y set to 0.1
      cases ax
      · exact fun hov => (inv.1 pl hmem).1 ((hOverlap_congr _ _ rfl pl).1 hov)
      · exact fun hov => (inv.2 pl hmem).1 ((vOverlap_congr _ _ rfl pl).1 hov)
    · cases ax
      · exact (inv.1 pl hmem).1
      · exact (inv.2 pl hmem).1

/-- Witness for C1: resting player snapped onto the single platform is
vertically separated from it. -/
theorem check_collision_resolved_axis_separated_witness :
    (groundPlat, Axis.vertical) ∈ (onePlatLevel.check_collision basePlayer).2 ∧
    axisSeparated (onePlatLevel.check_collision basePlayer).1 groundPlat Axis.vertical :=
  ⟨by norm_num [Level.check_collision, onePlatLevel, groundPlat, basePlayer, emptyLevel,
     snapCond, Player.width, Player.height, List.find?, abs_eq_max_neg, max_def],
   check_collision_resolved_axis_separated _ _ _ _
     (by norm_num [Level.check_collision, onePlatLevel, groundPlat, basePlayer, emptyLevel,
       snapCond, Player.width, Player.height, List.find?, abs_eq_max_neg, max_def])⟩

/-- The log length never shrinks along the minimum-overlap pass. -/
theorem resolvePass_len (pr0 : IRect) (plats : List Platform) :
    ∀ s : Player × List (Platform × Axis),
      s.2.length ≤ (plats.foldl (resolveStep pr0) s).2.length := by
  induction plats with
  | nil => intro s; exact le_refl _
  | cons pl rest ih =>
    intro s
    rw [List.foldl_cons]
    refine le_trans ?_ (ih (resolveStep pr0 s pl))
    rcases resolveStep_char pr0 s pl with heq | ⟨p', heq, _⟩ | ⟨p', heq, _⟩
    · rw [heq]
    · rw [heq]; simp
    · rw [heq]; simp

/-- If the minimum-overlap pass logged nothing new, it did nothing at all. -/
theorem resolvePass_fix (pr0 : IRect) (plats : List Platform) :
    ∀ s : Player × List (Platform × Axis),
      (plats.foldl (resolveStep pr0) s).2.length = s.2.length →
      plats.foldl (resolveStep pr0) s = s := by
  induction plats with
  | nil => intro s _; rfl
  | cons pl rest ih =>
    intro s hlen
    rw [List.foldl_cons] at hlen ⊢
    rcases resolveStep_char pr0 s pl with heq | ⟨p', heq, _⟩ | ⟨p', heq, _⟩
    · rw [heq] at hlen ⊢; exact ih s hlen
    · rw [heq] at hlen
      have := resolvePass_len pr0 rest (p', s.2 ++ [(pl, Axis.horizontal)])
      simp at this hlen
      omega
    · rw [heq] at hlen
      have := resolvePass_len pr0 rest (p', s.2 ++ [(pl, Axis.vertical)])
      simp at this hlen
      omega

/-- C8: a player who was on ground, whom check_collision resolves against no
platform (empty resolution log), and whose vertical velocity is zero, gets
the positive epsilon fall-start velocity 0.1 injected. -/
theorem fall_start_epsilon (l : Level) (p : Player)
    (hog : p.on_ground = true) (hvy : p.vel_y = 0)
    (hnone : (l.check_collision p).2 = []) :
    (l.check_collision p).1.vel_y = 1 / 10 ∧ (0:ℚ) < 1 / 10 := by
  unfold Level.check_collision at hnone ⊢
  cases hfind : l.platforms.find? (fun q => decide (snapCond { p with on_ground := false } q)) with
  | some pl0 => simp [hfind] at hnone
  | none =>
    simp only [hfind] at hnone ⊢
    split_ifs at hnone ⊢ with hinj
    · exact ⟨rfl, by norm_num⟩
    · exfalso
      have hfix := resolvePass_fix p.get_rect l.platforms ({ p with on_ground := false }, [])
        (by rw [hnone])
      refine hinj ⟨hog, ?_, ?_⟩
      · rw [hfix]
      · rw [hfix]; exact hvy

/-- Witness for C8: a grounded, vertically still player over an empty
platform list starts falling at 0.1. -/
theorem fall_start_epsilon_witness :
    (emptyLevel.check_collision { basePlayer with on_ground := true }).1.vel_y = 1 / 10 ∧
    (0:ℚ) < 1 / 10 :=
  fall_start_epsilon emptyLevel { basePlayer with on_ground := true } rfl rfl
    (by norm_num [Level.check_collision, emptyLevel, basePlayer, List.find?])

/-- add_tile only changes tile_count. -/
theorem add_tile_keeps (p : Player) :
    p.add_tile.x = p.x ∧ p.add_tile.y = p.y ∧ p.add_tile.vel_x = p.vel_x ∧
    p.add_tile.vel_y = p.vel_y ∧ p.add_tile.on_ground = p.on_ground ∧
    p.add_tile.jump_safety = p.jump_safety := by
  unfold Player.add_tile
  split_ifs <;> exact ⟨rfl, rfl, rfl, rfl, rfl, rfl⟩

/-- remove_tile only changes tile_count. -/
theorem remove_tile_keeps (p : Player) :
    p.remove_tile.x = p.x ∧ p.remove_tile.y = p.y ∧ p.remove_tile.vel_x = p.vel_x ∧
    p.remove_tile.vel_y = p.vel_y := by
  unfold Player.remove_tile
  split_ifs <;> exact ⟨rfl, rfl, rfl, rfl⟩

/-- Power-up activation only touches the boost flags and timers. -/
theorem apply_powerup_keeps (t : PType) (p : Player) :
    (apply_powerup t p).x = p.x ∧ (apply_powerup t p).y = p.y ∧
    (apply_powerup t p).vel_x = p.vel_x ∧ (apply_powerup t p).vel_y = p.vel_y ∧
    (apply_powerup t p).tile_count = p.tile_count := by
  cases t <;> exact ⟨rfl, rfl, rfl, rfl, rfl⟩

/-- The collection phase moves no simulation state but the tile list, the
tile counter and the score. -/
theorem phaseCollect_keeps (g : Game) :
    (phaseCollect g).player.x = g.player.x ∧ (phaseCollect g).player.y = g.player.y ∧
    (phaseCollect g).player.vel_x = g.player.vel_x ∧
    (phaseCollect g).player.vel_y = g.player.vel_y ∧
    (phaseCollect g).player.on_ground = g.player.on_ground ∧
    (phaseCollect g).player.jump_safety = g.player.jump_safety ∧
    (phaseCollect g).state = g.state ∧
    (phaseCollect g).level.platforms = g.level.platforms ∧
    (phaseCollect g).level.finish_line = g.level.finish_line ∧
    (phaseCollect g).timer = g.timer := by
  obtain ⟨h1, h2, h3, h4, h5, h6⟩ := add_tile_keeps g.player
  unfold phaseCollect Level.check_tile_collection
  dsimp only
  cases h : (collectTiles g.player.get_rect g.level.tiles).1 with
  | none => exact ⟨rfl, rfl, rfl, rfl, rfl, rfl, rfl, rfl, rfl, rfl⟩
  | some i => exact ⟨h1, h2, h3, h4, h5, h6, rfl, rfl, rfl, rfl⟩

/-- The physics phase does not touch the platform list. -/
theorem phasePhysics_platforms (sf : ℚ → ℚ) (intent : Intent) (g : Game) :
    (phasePhysics sf intent g).level.platforms = g.level.platforms := rfl

/-- Gap branch with resources: spend a tile, build the bridge. -/
theorem phaseGap_build (g : Game)
    (hcond : 2 < g.player.vel_y ∧ g.level.check_gap g.player = true)
    (htc : 0 < g.player.tile_count) :
    phaseGap g = { g with player := g.player.remove_tile,
                          level := g.level.build_bridge g.player.x g.player.y } := by
  unfold phaseGap
  rw [if_pos hcond, if_pos htc]

/-- Gap branch without resources: fall and GAME_OVER. -/
theorem phaseGap_fall (g : Game)
    (hcond : 2 < g.player.vel_y ∧ g.level.check_gap g.player = true)
    (htc : ¬ 0 < g.player.tile_count) :
    phaseGap g = { g with player := g.player.fall, state := GState.game_over } := by
  unfold phaseGap
  rw [if_pos hcond, if_neg htc]

/-- The power-up phase moves no simulation state but the power-up list and
the boost flags/timers. -/
theorem phasePowerup_keeps (g : Game) :
    (phasePowerup g).player.x = g.player.x ∧ (phasePowerup g).player.y = g.player.y ∧
    (phasePowerup g).player.vel_x = g.player.vel_x ∧
    (phasePowerup g).player.vel_y = g.player.vel_y ∧
    (phasePowerup g).player.tile_count = g.player.tile_count ∧
    (phasePowerup g).state = g.state ∧ (phasePowerup g).score = g.score ∧
    (phasePowerup g).timer = g.timer ∧
    (phasePowerup g).level.platforms = g.level.platforms ∧
    (phasePowerup g).level.finish_line = g.level.finish_line := by
  unfold phasePowerup Level.check_powerup_collision
  dsimp only
  cases h : (collectPowerUps g.player.get_rect g.level.power_ups).1 with
  | none => exact ⟨rfl, rfl, rfl, rfl, rfl, rfl, rfl, rfl, rfl, rfl⟩
  | some t =>
    obtain ⟨h1, h2, h3, h4, h5⟩ := apply_powerup_keeps t g.player
    exact ⟨h1, h2, h3, h4, h5, rfl, rfl, rfl, rfl, rfl⟩

/-- The camera phase only writes camera_x. -/
theorem phaseCamera_keeps (g : Game) :
    (phaseCamera g).player = g.player ∧ (phaseCamera g).state = g.state ∧
    (phaseCamera g).score = g.score ∧ (phaseCamera g).level = g.level ∧
    (phaseCamera g).timer = g.timer :=
  ⟨rfl, rfl, rfl, rfl, rfl⟩

/-- The finish phase never touches the player, the level or the timer. -/
theorem phaseFinish_keeps (g : Game) :
    (phaseFinish g).player = g.player ∧ (phaseFinish g).level = g.level ∧
    (phaseFinish g).timer = g.timer := by
  unfold phaseFinish
  split_ifs <;> exact ⟨rfl, rfl, rfl⟩

/-- Finish phase on overlap: LEVEL_COMPLETE and the bonus. -/
theorem phaseFinish_pos (g : Game) (h : g.level.check_finish_line g.player = true) :
    phaseFinish g = { g with state := GState.level_complete,
                             score := g.score + time_bonus g.timer +
                               g.player.tile_count * 50 } := by
  unfold phaseFinish
  rw [if_pos h]

/-- Finish phase without overlap: identity. -/
theorem phaseFinish_neg (g : Game) (h : g.level.check_finish_line g.player = false) :
    phaseFinish g = g := by
  unfold phaseFinish
  rw [h]
  simp

/-- The off-screen phase never touches the player, the level or the score. -/
theorem phaseOffscreen_keeps (g : Game) :
    (phaseOffscreen g).player = g.player ∧ (phaseOffscreen g).score = g.score ∧
    (phaseOffscreen g).level = g.level := by
  unfold phaseOffscreen
  split_ifs <;> exact ⟨rfl, rfl, rfl⟩

/-- The off-screen phase is the identity when the player is on screen. -/
theorem phaseOffscreen_not (g : Game) (h : ¬ (800:ℚ) < g.player.y) :
    phaseOffscreen g = g := by
  unfold phaseOffscreen
  rw [if_neg h]

/-- The off-screen phase keeps GAME_OVER. -/
theorem phaseOffscreen_go (g : Game) (h : g.state = GState.game_over) :
    (phaseOffscreen g).state = GState.game_over := by
  unfold phaseOffscreen
  split_ifs
  · rfl
  · exact h

/-- check_finish_line only reads the finish line and the player's position. -/
theorem check_finish_line_congr (l l' : Level) (p p' : Player)
    (hf : l.finish_line = l'.finish_line) (hx : p.x = p'.x) (hy : p.y = p'.y) :
    l.check_finish_line p = l'.check_finish_line p' := by
  unfold Level.check_finish_line Player.get_rect
  rw [hf, hx, hy]

/-- C6 counterexample: the claim as stated is false.  basePlayer rests
exactly on groundPlat (bottom edge on its top) with zero velocity and
groundPlat is in the set, yet check_collision against [upperPlat, groundPlat]
moves the player: upperPlat comes first in list order and its ground-snap
tolerance band [its top - 5, its top + 10] also contains the player's bottom
edge, so the player is snapped 5 pixels up onto upperPlat. -/
theorem ground_snap_moves_counterexample :
    basePlayer.vel_x = 0 ∧ basePlayer.vel_y = 0 ∧
    basePlayer.y + basePlayer.height / 2 = groundPlat.y ∧
    groundPlat ∈ twoPlatLevel.platforms ∧
    hOverlap basePlayer groundPlat ∧
    (twoPlatLevel.check_collision basePlayer).1.y ≠ basePlayer.y := by
  refine ⟨rfl, rfl, by norm_num [basePlayer, groundPlat, Player.height],
    by norm_num [twoPlatLevel, emptyLevel], ?_, ?_⟩
  · norm_num [hOverlap, basePlayer, groundPlat, Player.width]
  · norm_num [Level.check_collision, twoPlatLevel, upperPlat, groundPlat, basePlayer,
      emptyLevel, snapCond, Player.width, Player.height, List.find?,
      abs_eq_max_neg, max_def]

/-- C6 as amended: ground-snap leaves an exactly-resting, zero-velocity
player in place provided the first platform in list order that satisfies the
ground-snap condition is the one whose top edge carries the player's bottom
edge. -/
theorem ground_snap_stable (l : Level) (p : Player) (pl : Platform)
    (hfind : l.platforms.find?
      (fun q => decide (snapCond { p with on_ground := false } q)) = some pl)
    (hrest : p.y + p.height / 2 = pl.y)
    (hvx : p.vel_x = 0) (hvy : p.vel_y = 0) :
    (l.check_collision p).1.x = p.x ∧ (l.check_collision p).1.y = p.y := by
  unfold Level.check_collision
  simp only [hfind]
  refine ⟨trivial, ?_⟩
  show pl.y - ({ p with on_ground := false } : Player).height / 2 = p.y
  unfold Player.height at hrest ⊢
  linarith

/-- Witness for C6 (amended): with groundPlat alone, the resting player's
position is unchanged. -/
theorem ground_snap_stable_witness :
    (onePlatLevel.check_collision basePlayer).1.x = basePlayer.x ∧
    (onePlatLevel.check_collision basePlayer).1.y = basePlayer.y :=
  ground_snap_stable onePlatLevel basePlayer groundPlat
    (by norm_num [onePlatLevel, groundPlat, basePlayer, emptyLevel, snapCond,
      Player.width, Player.height, List.find?, abs_eq_max_neg, max_def])
    (by norm_num [basePlayer, groundPlat, Player.height]) rfl rfl

/-- C3 as amended: in PLAYING, when the frame's gap branch fires with a
resource count of 2 (count measured after physics and tile collection),
build_bridge is invoked exactly once: the count drops to 1 and exactly one
new platform is appended — horizontally centered on the actor's x (from
x - 20, width 40) with its top edge 20 below the actor's y (height 10), not
vertically centered at the actor's (x, y). -/
theorem gap_bridge_build (sf : ℚ → ℚ) (intent : Intent) (g g2 : Game)
    (hst : g.state = GState.playing)
    (hg2 : g2 = phaseCollect (phasePhysics sf intent g))
    (htc : g2.player.tile_count = 2)
    (hvy : 2 < g2.player.vel_y)
    (hgap : g2.level.check_gap g2.player = true) :
    g2.level.platforms = g.level.platforms ∧
    (Game.update sf intent g).player.tile_count = 1 ∧
    (Game.update sf intent g).level.platforms =
      g2.level.platforms ++ [⟨g2.player.x - 20, g2.player.y + 20, 40, 10⟩] := by
  have hplat : g2.level.platforms = g.level.platforms := by
    rw [hg2, (phaseCollect_keeps (phasePhysics sf intent g)).2.2.2.2.2.2.2.1,
      phasePhysics_platforms]
  have hupd : Game.update sf intent g = updatePlaying sf intent g := by
    simp only [Game.update, hst]
  rw [hupd]
  unfold updatePlaying
  rw [← hg2]
  rw [phaseGap_build g2 ⟨hvy, hgap⟩ (by omega)]
  set g3 : Game := { g2 with player := g2.player.remove_tile,
                             level := g2.level.build_bridge g2.player.x g2.player.y }
    with hg3
  have htc3 : g3.player.tile_count = 1 := by
    show g2.player.remove_tile.tile_count = 1
    unfold Player.remove_tile
    rw [if_pos (by omega)]
    show g2.player.tile_count - 1 = 1
    omega
  have hpl3 : g3.level.platforms =
      g2.level.platforms ++ [⟨g2.player.x - 20, g2.player.y + 20, 40, 10⟩] := rfl
  obtain ⟨pw_x, pw_y, pw_vx, pw_vy, pw_tc, pw_st, pw_sc, pw_t, pw_pl, pw_fl⟩ :=
    phasePowerup_keeps g3
  obtain ⟨cm_p, cm_st, cm_sc, cm_lv, cm_t⟩ := phaseCamera_keeps (phasePowerup g3)
  obtain ⟨fn_p, fn_lv, fn_t⟩ := phaseFinish_keeps (phaseCamera (phasePowerup g3))
  obtain ⟨os_p, os_sc, os_lv⟩ :=
    phaseOffscreen_keeps (phaseFinish (phaseCamera (phasePowerup g3)))
  refine ⟨hplat, ?_, ?_⟩
  · rw [os_p, fn_p, cm_p, pw_tc, htc3]
  · rw [os_lv, fn_lv, cm_lv, pw_pl, hpl3]

/-- C3 counterexample to the claim as frozen: the scenario (falling with
vel_y = 5, two tiles, over a gap, moving right) does invoke build_bridge
once and the count becomes 1, but the one appended platform is placed with
its top 20 below the actor, so its center (y + height / 2 = 654/5) is not
the actor's y (529/5): the bridge is not centered at the actor's (x, y). -/
theorem bridge_not_centered_counterexample :
    (phaseCollect (phasePhysics sinZero rightIntent fallGame2)).player.tile_count = 2 ∧
    2 < (phaseCollect (phasePhysics sinZero rightIntent fallGame2)).player.vel_y ∧
    (phaseCollect (phasePhysics sinZero rightIntent fallGame2)).level.check_gap
      (phaseCollect (phasePhysics sinZero rightIntent fallGame2)).player = true ∧
    (Game.update sinZero rightIntent fallGame2).player.tile_count = 1 ∧
    (Game.update sinZero rightIntent fallGame2).level.platforms =
      [⟨339/4, 629/5, 40, 10⟩] ∧
    (Game.update sinZero rightIntent fallGame2).player.y = 529/5 ∧
    ¬ ((629:ℚ)/5 + 10 / 2 = 529/5) := by
  norm_num [Game.update, updatePlaying, phaseOffscreen, phaseFinish, phaseCamera,
    phasePowerup, phaseGap, phaseCollect, phasePhysics, Player.update, Player.jump,
    Level.update, Level.check_collision, Level.check_gap, Level.check_tile_collection,
    collectTiles, Level.check_powerup_collision, collectPowerUps, Level.check_finish_line,
    Level.build_bridge, Player.add_tile, Player.remove_tile, Player.fall, resolveStep,
    snapCond, tz, IRect.collide, Player.get_rect, Platform.get_rect, Player.width,
    Player.height, Player.speed, Player.gravity, Player.max_tiles, Player.jump_power,
    basePlayer, emptyLevel, baseGame, sinZero, rightIntent, time_bonus, fallGame2,
    List.find?, List.foldl, abs_eq_max_neg, max_def]

/-- Witness for C3 (amended): the concrete falling scenario, via the general
theorem. -/
theorem gap_bridge_build_witness :
    (phaseCollect (phasePhysics sinZero rightIntent fallGame2)).level.platforms =
      fallGame2.level.platforms ∧
    (Game.update sinZero rightIntent fallGame2).player.tile_count = 1 ∧
    (Game.update sinZero rightIntent fallGame2).level.platforms =
      (phaseCollect (phasePhysics sinZero rightIntent fallGame2)).level.platforms ++
        [⟨(phaseCollect (phasePhysics sinZero rightIntent fallGame2)).player.x - 20,
          (phaseCollect (phasePhysics sinZero rightIntent fallGame2)).player.y + 20,
          40, 10⟩] :=
  gap_bridge_build sinZero rightIntent fallGame2 _ rfl rfl
    (by norm_num [phaseCollect, phasePhysics, Player.update, Player.jump, Level.update,
      Level.check_collision, Level.check_tile_collection, collectTiles, resolveStep,
      snapCond, tz, IRect.collide, Player.get_rect, Player.width, Player.height,
      Player.speed, Player.gravity, Player.max_tiles, Player.jump_power, basePlayer,
      emptyLevel, baseGame, sinZero, rightIntent, fallGame2, List.find?, List.foldl,
      abs_eq_max_neg, max_def])
    (by norm_num [phaseCollect, phasePhysics, Player.update, Player.jump, Level.update,
      Level.check_collision, Level.check_tile_collection, collectTiles, resolveStep,
      snapCond, tz, IRect.collide, Player.get_rect, Player.width, Player.height,
      Player.speed, Player.gravity, Player.max_tiles, Player.jump_power, basePlayer,
      emptyLevel, baseGame, sinZero, rightIntent, fallGame2, List.find?, List.foldl,
      abs_eq_max_neg, max_def])
    (by norm_num [phaseCollect, phasePhysics, Player.update, Player.jump, Level.update,
      Level.check_collision, Level.check_tile_collection, collectTiles, resolveStep,
      Level.check_gap, snapCond, tz, IRect.collide, Player.get_rect, Player.width,
      Player.height, Player.speed, Player.gravity, Player.max_tiles, Player.jump_power,
      basePlayer, emptyLevel, baseGame, sinZero, rightIntent, fallGame2, List.find?,
      List.foldl, abs_eq_max_neg, max_def])

/-- C4: in PLAYING, when the gap branch fires with no resources (count
measured after physics and collection) and the actor is not at the finish
marker, the frame ends in GAME_OVER with vel_y set to the fall constant 15;
every step is a total function, no exception path exists. -/
theorem gap_without_tiles_game_over (sf : ℚ → ℚ) (intent : Intent) (g g2 : Game)
    (hst : g.state = GState.playing)
    (hg2 : g2 = phaseCollect (phasePhysics sf intent g))
    (htc : g2.player.tile_count = 0)
    (hvy : 2 < g2.player.vel_y)
    (hgap : g2.level.check_gap g2.player = true)
    (hfin : g2.level.check_finish_line g2.player = false) :
    (Game.update sf intent g).state = GState.game_over ∧
    (Game.update sf intent g).player.vel_y = 15 := by
  have hupd : Game.update sf intent g = updatePlaying sf intent g := by
    simp only [Game.update, hst]
  rw [hupd]
  unfold updatePlaying
  rw [← hg2]
  rw [phaseGap_fall g2 ⟨hvy, hgap⟩ (by omega)]
  set g3 : Game := { g2 with player := g2.player.fall, state := GState.game_over }
    with hg3
  obtain ⟨pw_x, pw_y, pw_vx, pw_vy, pw_tc, pw_st, pw_sc, pw_t, pw_pl, pw_fl⟩ :=
    phasePowerup_keeps g3
  obtain ⟨cm_p, cm_st, cm_sc, cm_lv, cm_t⟩ := phaseCamera_keeps (phasePowerup g3)
  have hfl : (phaseCamera (phasePowerup g3)).level.finish_line = g2.level.finish_line := by
    rw [cm_lv, pw_fl]
  have hx : (phaseCamera (phasePowerup g3)).player.x = g2.player.x := by
    rw [cm_p, pw_x]
    rfl
  have hy : (phaseCamera (phasePowerup g3)).player.y = g2.player.y := by
    rw [cm_p, pw_y]
    rfl
  have hfin' : (phaseCamera (phasePowerup g3)).level.check_finish_line
      (phaseCamera (phasePowerup g3)).player = false := by
    rw [check_finish_line_congr (phaseCamera (phasePowerup g3)).level g2.level
      (phaseCamera (phasePowerup g3)).player g2.player hfl hx hy]
    exact hfin
  rw [phaseFinish_neg _ hfin']
  constructor
  · apply phaseOffscreen_go
    rw [cm_st, pw_st]
  · obtain ⟨os_p, os_sc, os_lv⟩ := phaseOffscreen_keeps (phaseCamera (phasePowerup g3))
    rw [os_p, cm_p, pw_vy]
    rfl

/-- Witness for C4: the concrete no-tiles falling scenario ends the frame in
GAME_OVER at vel_y = 15. -/
theorem gap_without_tiles_game_over_witness :
    (Game.update sinZero rightIntent fallGame0).state = GState.game_over ∧
    (Game.update sinZero rightIntent fallGame0).player.vel_y = 15 :=
  gap_without_tiles_game_over sinZero rightIntent fallGame0 _ rfl rfl
    (by norm_num [phaseCollect, phasePhysics, Player.update, Player.jump, Level.update,
      Level.check_collision, Level.check_tile_collection, collectTiles, resolveStep,
      snapCond, tz, IRect.collide, Player.get_rect, Player.width, Player.height,
      Player.speed, Player.gravity, Player.max_tiles, Player.jump_power, basePlayer,
      emptyLevel, baseGame, sinZero, rightIntent, fallGame0, List.find?, List.foldl,
      abs_eq_max_neg, max_def])
    (by norm_num [phaseCollect, phasePhysics, Player.update, Player.jump, Level.update,
      Level.check_collision, Level.check_tile_collection, collectTiles, resolveStep,
      snapCond, tz, IRect.collide, Player.get_rect, Player.width, Player.height,
      Player.speed, Player.gravity, Player.max_tiles, Player.jump_power, basePlayer,
      emptyLevel, baseGame, sinZero, rightIntent, fallGame0, List.find?, List.foldl,
      abs_eq_max_neg, max_def])
    (by norm_num [phaseCollect, phasePhysics, Player.update, Player.jump, Level.update,
      Level.check_collision, Level.check_tile_collection, collectTiles, resolveStep,
      Level.check_gap, snapCond, tz, IRect.collide, Player.get_rect, Player.width,
      Player.height, Player.speed, Player.gravity, Player.max_tiles, Player.jump_power,
      basePlayer, emptyLevel, baseGame, sinZero, rightIntent, fallGame0, List.find?,
      List.foldl, abs_eq_max_neg, max_def])
    (by norm_num [phaseCollect, phasePhysics, Player.update, Player.jump, Level.update,
      Level.check_collision, Level.check_tile_collection, collectTiles, resolveStep,
      Level.check_finish_line, snapCond, tz, IRect.collide, Player.get_rect,
      Player.width, Player.height, Player.speed, Player.gravity, Player.max_tiles,
      Player.jump_power, basePlayer, emptyLevel, baseGame, sinZero, rightIntent,
      fallGame0, List.find?, List.foldl, abs_eq_max_neg, max_def])

/-- Truncation toward zero loses less than one. -/
theorem lt_tz_add_one (q : ℚ) : q < (tz q : ℚ) + 1 := by
  unfold tz
  split_ifs with h
  · have hc := Int.le_ceil q
    push_cast at hc
    linarith
  · have hf := Int.lt_floor_add_one q
    push_cast at hf
    linarith

/-- Overlapping a finish line whose rectangle bottom is at most 769 keeps
the player above the off-screen bound 800 (the player rect's top is the
truncation of y - 30). -/
theorem finish_overlap_y_le (l : Level) (p : Player) (f : FinishLine)
    (hf : l.finish_line = some f) (hb : tz f.y + tz f.height ≤ 769)
    (hc : l.check_finish_line p = true) : p.y ≤ 800 := by
  unfold Level.check_finish_line at hc
  rw [hf] at hc
  have hcol : IRect.collide p.get_rect f.get_rect := of_decide_eq_true hc
  unfold IRect.collide Player.get_rect FinishLine.get_rect at hcol
  obtain ⟨-, -, -, -, -, -, h7, -⟩ := hcol
  dsimp only at h7
  have h8z : tz (p.y - 30) ≤ 768 := by omega
  have h8 : ((tz (p.y - 30) : ℤ) : ℚ) ≤ 768 := by exact_mod_cast h8z
  have h9 := lt_tz_add_one (p.y - 30)
  linarith

/-- C7: overlapping the finish marker in PLAYING transitions the frame to
LEVEL_COMPLETE and adds the time/tile bonus to the score exactly once; in
LEVEL_COMPLETE, Game.update is the identity, so no later frame can add the
bonus again while the overlap persists.  gC is the state just before the
finish check (after physics, collection, gap handling, power-ups and
camera); the bound on the finish rectangle (met by the generated finish
line, whose rectangle spans y = 350..550) rules the off-screen override
out. -/
theorem finish_bonus_once :
    (∀ (sf : ℚ → ℚ) (intent : Intent) (g gC : Game) (f : FinishLine),
      g.state = GState.playing →
      gC = phaseCamera (phasePowerup (phaseGap (phaseCollect (phasePhysics sf intent g)))) →
      gC.level.finish_line = some f →
      tz f.y + tz f.height ≤ 769 →
      gC.level.check_finish_line gC.player = true →
      (Game.update sf intent g).state = GState.level_complete ∧
      (Game.update sf intent g).score =
        gC.score + time_bonus gC.timer + gC.player.tile_count * 50) ∧
    (∀ (sf : ℚ → ℚ) (intent : Intent) (g : Game),
      g.state = GState.level_complete → Game.update sf intent g = g) := by
  constructor
  · intro sf intent g gC f hst hgC hf hb hc
    have hupd : Game.update sf intent g = updatePlaying sf intent g := by
      simp only [Game.update, hst]
    rw [hupd]
    unfold updatePlaying
    rw [← hgC]
    rw [phaseFinish_pos gC hc]
    have hy : gC.player.y ≤ 800 := finish_overlap_y_le gC.level gC.player f hf hb hc
    rw [phaseOffscreen_not _ (by exact not_lt.2 hy)]
    exact ⟨rfl, rfl⟩
  · intro sf intent g hst
    simp only [Game.update, hst]

/-- Witness for C7: a player overlapping a small finish line over empty
ground completes the level with the bonus added, and an update in
LEVEL_COMPLETE changes nothing. -/
theorem finish_bonus_once_witness :
    ((Game.update sinZero idleIntent finishGame).state = GState.level_complete ∧
     (Game.update sinZero idleIntent finishGame).score =
       (phaseCamera (phasePowerup (phaseGap (phaseCollect
         (phasePhysics sinZero idleIntent finishGame))))).score +
       time_bonus (phaseCamera (phasePowerup (phaseGap (phaseCollect
         (phasePhysics sinZero idleIntent finishGame))))).timer +
       (phaseCamera (phasePowerup (phaseGap (phaseCollect
         (phasePhysics sinZero idleIntent finishGame))))).player.tile_count * 50) ∧
    Game.update sinZero idleIntent doneGame = doneGame :=
  ⟨finish_bonus_once.1 sinZero idleIntent finishGame _ cFinish rfl rfl
    (by norm_num [phaseCamera, phasePowerup, phaseGap, phaseCollect, phasePhysics,
      Player.update, Player.jump, Level.update, Level.check_collision, Level.check_gap,
      Level.check_tile_collection, collectTiles, Level.check_powerup_collision,
      collectPowerUps, Level.build_bridge, Player.add_tile, Player.remove_tile,
      Player.fall, apply_powerup, resolveStep, snapCond, tz, IRect.collide,
      Player.get_rect, Platform.get_rect, Player.width, Player.height, Player.speed,
      Player.gravity, Player.max_tiles, Player.jump_power, basePlayer, emptyLevel,
      baseGame, sinZero, idleIntent, finishGame, cFinish, List.find?, List.foldl,
      abs_eq_max_neg, max_def])
    (by norm_num [tz, cFinish])
    (by norm_num [phaseCamera, phasePowerup, phaseGap, phaseCollect, phasePhysics,
      Player.update, Player.jump, Level.update, Level.check_collision, Level.check_gap,
      Level.check_tile_collection, collectTiles, Level.check_powerup_collision,
      collectPowerUps, Level.build_bridge, Player.add_tile, Player.remove_tile,
      Player.fall, apply_powerup, resolveStep, snapCond, tz, IRect.collide,
      Level.check_finish_line, Player.get_rect, Platform.get_rect, FinishLine.get_rect,
      Player.width, Player.height, Player.speed, Player.gravity, Player.max_tiles,
      Player.jump_power, basePlayer, emptyLevel, baseGame, sinZero, idleIntent,
      finishGame, cFinish, List.find?, List.foldl, abs_eq_max_neg, max_def]),
   finish_bonus_once.2 sinZero idleIntent doneGame rfl⟩

end StackDash
